import Mathlib

/-!
Shallow embedding of `src/ppt_to_pdf_lo.py`, a batch converter of PPT/PPTX
files to PDF that delegates the conversion to an external headless
LibreOffice process.

The filesystem and the external process are modelled abstractly:
an `Env` answers the existence and PATH-lookup queries made by
`find_soffice`, a `World` answers one `subprocess.run` invocation and the
post-invocation existence check made by `convert_file`, and a `Sys` bundles
everything `main` consults.  All Python functions are translated
line-by-line from the source into total Lean functions; exceptions become
explicit constructors.
-/

namespace PptToPdf

/-- Python `str.rfind` restricted to the dot character, on an exploded
string: index of the last occurrence of a dot, if any. -/
def lastDotIdx (cs : List Char) : Option Nat :=
  match cs.reverse.findIdx? (· == '.') with
  | none => none
  | some j => some (cs.length - 1 - j)

/-- Model of `pathlib.PurePath.suffix` applied to a final path component `name`:
`i = name.rfind(.)`; if `0 < i < len(name) - 1` the suffix is `name[i:]`,
otherwise the empty string. -/
def pySuffix (name : String) : String :=
  let cs := name.toList
  match lastDotIdx cs with
  | none => ""
  | some i => if 0 < i ∧ i < cs.length - 1 then String.mk (cs.drop i) else ""

/-- A `pathlib.Path` value, split into the components of its parent
directory and its final component (`Path.name`). -/
structure PPath where
  parent : List String
  name : String
deriving DecidableEq, Repr

/-- Model of `pathlib.PurePath.stem`: the final component without its suffix. -/
def PPath.stem (p : PPath) : String :=
  p.name.dropRight (pySuffix p.name).length

/-- Model of `pathlib.PurePath.with_suffix` at a valid non-empty suffix argument:
the same parent, final component replaced by `stem + suffix`.  (Python
raises `ValueError` when `name` is empty; `convert_file` models that raise
explicitly, so this function is only consulted for non-empty names.) -/
def PPath.with_suffix (p : PPath) (suffix : String) : PPath :=
  ⟨p.parent, p.stem ++ suffix⟩

/-- Model of `str(path)`: components joined by the separator. -/
def PPath.str (p : PPath) : String :=
  String.intercalate "/" (p.parent ++ [p.name])

/-- Model of `str(path.parent)`. -/
def dirStr (parent : List String) : String :=
  String.intercalate "/" parent

/-- The completed-process value returned by `subprocess.run` with
`stdout=PIPE, stderr=PIPE, text=True`. -/
structure ProcResult where
  returncode : Int
  stdout : String
  stderr : String
deriving DecidableEq, Repr

/-- Outcome of one attempt to launch the external process: either the
process ran to completion, or launching raised an exception whose
`str(e)` text is recorded. -/
inductive RunOutcome where
  | completed : ProcResult → RunOutcome
  | raised : String → RunOutcome
deriving DecidableEq, Repr

/-- The slice of the outside world one `convert_file` call observes:
the behaviour of `subprocess.run` on a command line, and the filesystem
existence check evaluated after that invocation has completed. -/
structure World where
  run : List String → RunOutcome
  existsAfter : PPath → Bool

/-- The command line built by `convert_file`:
`[soffice, "--headless", "--convert-to", "pdf", "--outdir", outdir, str(fpath)]`. -/
def convert_cmd (soffice : String) (fpath : PPath) : List String :=
  [soffice, "--headless", "--convert-to", "pdf", "--outdir", dirStr fpath.parent, fpath.str]

/-- Text `str(e)` of the `ValueError` that `with_suffix` raises on a path with
an empty final component. -/
def emptyNameError (fpath : PPath) : String :=
  fpath.str ++ " has an empty name"

/-- Model of `convert_file(soffice, fpath)` from the source: run the external
command; on a launch exception return `(False, str(e))`; otherwise succeed
iff `fpath.with_suffix(".pdf")` exists after the invocation, with the
stripped stdout (or, if that is empty, the stripped stderr) as message.
The `ValueError` that `with_suffix` raises on an empty `name` is caught by
the same `except` clause and becomes a failed result. -/
def convert_file (soffice : String) (fpath : PPath) (w : World) : Bool × String :=
  match w.run (convert_cmd soffice fpath) with
  | .raised e => (false, e)
  | .completed res =>
    if fpath.name.isEmpty then
      (false, emptyNameError fpath)
    else
      let out_pdf := fpath.with_suffix ".pdf"
      let ok := w.existsAfter out_pdf
      let msg := if res.stdout.trim.isEmpty then res.stderr.trim else res.stdout.trim
      (ok, msg)

/-- The filesystem and PATH queries made by `find_soffice`:
`Path(s).exists()` and `shutil.which(prog)`. -/
structure Env where
  pathExists : String → Bool
  which : String → Option String

/-- The fixed well-known Windows install location probed in step 2. -/
def common_win : String :=
  "C:\\Program Files\\LibreOffice\\program\\soffice.exe"

/-- The message of the `FileNotFoundError` raised when every strategy
fails (quotes of the original text elided). -/
def soffice_not_found_msg : String :=
  "LibreOffice soffice executable not found. Install LibreOffice or pass --soffice PATH"

/-- Python truthiness of the optional `--soffice` argument: `None` and the
empty string are falsy. -/
def truthy : Option String → Bool
  | none => false
  | some s => !s.isEmpty

/-- Steps 2 to 4 of `find_soffice`: probe the fixed Windows location, then
`shutil.which("soffice") or shutil.which("soffice.exe")`, else raise
`FileNotFoundError`. -/
def find_soffice_fallback (env : Env) : Except String String :=
  if env.pathExists common_win then .ok common_win
  else
    match env.which "soffice" with
    | some found => .ok found
    | none =>
      match env.which "soffice.exe" with
      | some found => .ok found
      | none => .error soffice_not_found_msg

/-- Model of `find_soffice(user_path)` from the source, together with the list of
lines it prints to stderr: when `user_path` is truthy it is returned as-is
if it exists, else a warning line is printed and resolution falls through
to `find_soffice_fallback`. -/
def find_soffice (env : Env) (user_path : Option String) : Except String String × List String :=
  if truthy user_path then
    let up := user_path.getD ""
    if env.pathExists up then (.ok up, [])
    else (find_soffice_fallback env, ["[!] Provided soffice path not found: " ++ up])
  else (find_soffice_fallback env, [])

/-- One entry of the directory tree rooted at the target folder:
its path components relative to the root (so `rel.length = 1` exactly for
the direct children yielded by `glob("*")`, while `rglob("*")` yields every
entry), and whether `is_file()` holds for it. -/
structure FSEntry where
  rel : List String
  isFile : Bool
deriving DecidableEq, Repr

/-- Final component `Path.name` of an entry: its last relative component. -/
def FSEntry.name (e : FSEntry) : String :=
  e.rel.getLast?.getD ""

/-- Model of `str.lower()` as character-wise lowercasing (the ASCII case
mapping, which is all the two recognized extensions exercise). -/
def pyLower (s : String) : String :=
  String.mk (s.toList.map Char.toLower)

/-- The tuple `exts = (".ppt", ".pptx")`. -/
def exts : List String := [".ppt", ".pptx"]

/-- The comprehension condition `p.is_file() and p.suffix.lower() in exts`. -/
def matchesExt (e : FSEntry) : Bool :=
  e.isFile && exts.contains (pyLower (pySuffix e.name))

/-- Model of `collect_files(root, recursive)` from the source, over the list `fs` of
all entries of the tree under the root: `rglob("*")` enumerates all of
`fs`, `glob("*")` its depth-one part. -/
def collect_files (fs : List FSEntry) (recursive : Bool) : List FSEntry :=
  if recursive then
    fs.filter matchesExt
  else
    (fs.filter (fun e => e.rel.length == 1)).filter matchesExt

/-- Absolute path of a collected entry: root components, then the
intermediate relative components, then the final component. -/
def entryPath (root : List String) (e : FSEntry) : PPath :=
  ⟨root ++ e.rel.dropLast, e.name⟩

/-- Everything `main` consults about the outside world: the two checks on
the target folder, the resolver environment, the entries of the tree under
the folder, and the behaviour of the world at the i-th external
invocation. -/
structure Sys where
  rootExists : Bool
  rootIsDir : Bool
  env : Env
  entries : List FSEntry
  trace : Nat → World

/-- Observable outcome of a run of `main`: the process exit code, how many
times `find_soffice` was invoked, the list collection returned (`none`
when collection never ran), the per-file invocations of `convert_file`
(executable argument and file, in order), and the two counters. -/
structure RunResult where
  exitCode : Nat
  resolutions : Nat
  collected : Option (List FSEntry)
  conversions : List (String × PPath)
  okCount : Nat
  failCount : Nat
deriving DecidableEq, Repr

/-- The `for i, f in enumerate(files, 1)` loop of `main`: convert each
file in order with the same `soffice`, the i-th call observing `trace i`;
returns `(ok, fail, log of convert_file invocations)`. -/
def convLoop (soffice : String) (trace : Nat → World) : List PPath → Nat → Nat × Nat × List (String × PPath)
  | [], _ => (0, 0, [])
  | f :: rest, i =>
    let success := (convert_file soffice f (trace i)).1
    let r := convLoop soffice trace rest (i + 1)
    if success then (r.1 + 1, r.2.1, (soffice, f) :: r.2.2)
    else (r.1, r.2.1 + 1, (soffice, f) :: r.2.2)

/-- Model of `main()` from the source, at parsed arguments `(folder, recursive,
soffice_arg)`: exit 2 when the folder is missing or not a directory,
exit 3 when `find_soffice` raises, otherwise collect, convert each file in
a loop, and finish with exit code 0 (also via `sys.exit(0)` when no file
was found). -/
def main (sys : Sys) (root : List String) (recursive : Bool) (soffice_arg : Option String) : RunResult :=
  if !sys.rootExists || !sys.rootIsDir then
    ⟨2, 0, none, [], 0, 0⟩
  else
    match (find_soffice sys.env soffice_arg).1 with
    | .error _ => ⟨3, 1, none, [], 0, 0⟩
    | .ok soffice =>
      let files := collect_files sys.entries recursive
      let total := files.length
      if total == 0 then ⟨0, 1, some files, [], 0, 0⟩
      else
        let r := convLoop soffice sys.trace (files.map (entryPath root)) 0
        ⟨0, 1, some files, r.2.2, r.1, r.2.1⟩

/-- Steps (2) to (4) of claim C3: the fixed well-known install location if
it exists, else a search of the executable search path for either of the
two recognized program names, else a not-found error. -/
def find_soffice_claim_rest (env : Env) : Except String String :=
  if env.pathExists common_win then .ok common_win
  else
    match env.which "soffice" with
    | some found => .ok found
    | none =>
      match env.which "soffice.exe" with
      | some found => .ok found
      | none => .error soffice_not_found_msg

/-- The resolution procedure exactly as claim C3 words it: (1) the
user-supplied path as-is whenever one was supplied and it exists on disk,
else the remaining steps (2) to (4). -/
def find_soffice_claim (env : Env) (user_path : Option String) : Except String String :=
  match user_path with
  | some up => if env.pathExists up then .ok up else find_soffice_claim_rest env
  | none => find_soffice_claim_rest env

/-- Claim C3 as amended: step (1) uses the user-supplied path only when it
is non-empty and exists on disk; an empty supplied path is treated as if
no path had been supplied. -/
def find_soffice_amended (env : Env) (user_path : Option String) : Except String String :=
  match user_path with
  | some up =>
    if !up.isEmpty && env.pathExists up then .ok up else find_soffice_claim_rest env
  | none => find_soffice_claim_rest env

/-- An environment in which exactly the empty path string exists on disk
(in Python, `Path("")` is the current directory, which exists whenever the
working directory has not been removed) and the PATH search finds
nothing. -/
def envEmptyOnly : Env :=
  ⟨fun s => s.isEmpty, fun _ => none⟩

/-- An environment in which no path exists and the PATH search finds
nothing. -/
def envNone : Env :=
  ⟨fun _ => false, fun _ => none⟩

/-- A world whose process launch always raises. -/
def wRaise : World :=
  ⟨fun _ => .raised "boom", fun _ => false⟩

/-- A world whose process always completes and after which exactly the
files named `a.pdf` exist. -/
def wPdfA : World :=
  ⟨fun _ => .completed ⟨1, "out", ""⟩, fun p => p.name == "a.pdf"⟩

/-- An environment whose PATH search always succeeds. -/
def envWhich : Env :=
  ⟨fun _ => false, fun _ => some "/usr/bin/soffice"⟩

/-- A system whose target folder is missing. -/
def sysBadRoot : Sys :=
  ⟨false, true, envNone, [⟨["a.ppt"], true⟩], fun _ => wRaise⟩

/-- A system whose target folder is fine but whose environment resolves no
executable. -/
def sysNoExe : Sys :=
  ⟨true, true, envNone, [⟨["a.ppt"], true⟩], fun _ => wRaise⟩

/-- A system whose run reaches the conversion loop: existing folder,
PATH-resolvable executable, one matching file, one non-matching file, and
external invocations that complete. -/
def sysOk : Sys :=
  ⟨true, true, envWhich, [⟨["a.ppt"], true⟩, ⟨["b.txt"], true⟩], fun _ => wPdfA⟩

/-- C1.  For every file entry (any path with a non-empty final component),
once the external invocation has completed — with any exit status, which
the result does not depend on — `convert_file` reports success if and only
if a file with the same base name (the stem) and a `.pdf` extension exists
in the input file's parent directory afterwards; the post-invocation
filesystem is unconstrained, so a PDF that already existed before the
invocation counts as a success. -/
theorem convert_success_iff_pdf_exists (soffice : String) (fpath : PPath) (w : World)
    (res : ProcResult) (hname : fpath.name ≠ "")
    (hrun : w.run (convert_cmd soffice fpath) = .completed res) :
    (convert_file soffice fpath w).1 = w.existsAfter ⟨fpath.parent, fpath.stem ++ ".pdf"⟩ := by
  unfold convert_file
  rw [hrun]
  simp [PPath.with_suffix, String.isEmpty_iff, hname]

/-- Witness for C1 at a concrete world where the external process
completes with exit status 1 and the PDF exists afterwards. -/
theorem convert_success_iff_pdf_exists_witness :
    (convert_file "soff" ⟨["d"], "a.ppt"⟩ wPdfA).1 =
      wPdfA.existsAfter ⟨["d"], PPath.stem ⟨["d"], "a.ppt"⟩ ++ ".pdf"⟩ :=
  convert_success_iff_pdf_exists "soff" ⟨["d"], "a.ppt"⟩ wPdfA ⟨1, "out", ""⟩
    (by decide) rfl

/-- C2.  `collect_files` returns exactly the entries that are files and
whose extension, compared case-insensitively, is `.ppt` or `.pptx`; in
recursive mode every entry of the tree is considered (any depth), in
non-recursive mode only the direct children of the root. -/
theorem collect_files_mem (fs : List FSEntry) (e : FSEntry) :
    (e ∈ collect_files fs true ↔
      e ∈ fs ∧ e.isFile = true ∧
        (pyLower (pySuffix e.name) = ".ppt" ∨ pyLower (pySuffix e.name) = ".pptx")) ∧
    (e ∈ collect_files fs false ↔
      e ∈ fs ∧ e.rel.length = 1 ∧ e.isFile = true ∧
        (pyLower (pySuffix e.name) = ".ppt" ∨ pyLower (pySuffix e.name) = ".pptx")) := by
  constructor <;>
    · simp [collect_files, matchesExt, List.mem_filter, exts, List.contains]
      try tauto

/-- Witness for C2: an upper-case `.PPTX` direct child is collected in
both modes, a file at depth 2 is collected exactly in recursive mode, and
a directory is never collected. -/
theorem collect_files_mem_witness :
    (⟨["sub", "b.PPT"], true⟩ : FSEntry) ∈
        collect_files [⟨["a.pptx"], true⟩, ⟨["sub"], false⟩, ⟨["sub", "b.PPT"], true⟩] true ∧
    (⟨["sub", "b.PPT"], true⟩ : FSEntry) ∉
        collect_files [⟨["a.pptx"], true⟩, ⟨["sub"], false⟩, ⟨["sub", "b.PPT"], true⟩] false :=
  ⟨(collect_files_mem _ _).1.mpr ⟨by decide, by decide, by decide⟩,
   fun h => by
    have := (collect_files_mem
      [⟨["a.pptx"], true⟩, ⟨["sub"], false⟩, ⟨["sub", "b.PPT"], true⟩]
      ⟨["sub", "b.PPT"], true⟩).2.mp h
    exact absurd this.2.1 (by decide)⟩

/-- Counterexample to claim C3 taken literally: in `envEmptyOnly` the
supplied path `""` exists on disk, yet
`find_soffice` does not return it (the source tests the truthiness of the
argument first, so an empty supplied path is ignored), while the claimed
procedure returns it as-is. -/
theorem find_soffice_claim_counterexample :
    (find_soffice envEmptyOnly (some "")).1 = Except.error soffice_not_found_msg ∧
      find_soffice_claim envEmptyOnly (some "") = Except.ok "" :=
  ⟨rfl, rfl⟩

/-- C3 as amended: `find_soffice` implements the claimed priority order
with step (1) restricted to non-empty supplied paths (an empty supplied
path is treated as absent). -/
theorem find_soffice_eq_amended (env : Env) (up : Option String) :
    (find_soffice env up).1 = find_soffice_amended env up := by
  have hrest : find_soffice_fallback env = find_soffice_claim_rest env := rfl
  cases up with
  | none => simp [find_soffice, truthy, find_soffice_amended, hrest]
  | some s =>
    by_cases hs : s.isEmpty
    · simp [find_soffice, truthy, find_soffice_amended, hs, hrest]
    · by_cases hp : env.pathExists s <;>
        simp [find_soffice, truthy, find_soffice_amended, hs, hp, hrest]

/-- C4.  Whenever launching the external process raises an exception,
`convert_file` catches it and returns the failed result
`(False, str(e))`; being a total function, it never propagates a fault. -/
theorem convert_file_catches_launch_failure (soffice : String) (fpath : PPath)
    (w : World) (e : String)
    (hrun : w.run (convert_cmd soffice fpath) = .raised e) :
    convert_file soffice fpath w = (false, e) := by
  unfold convert_file
  rw [hrun]

/-- Witness for C4 at a concrete world whose launch always raises. -/
theorem convert_file_catches_launch_failure_witness :
    convert_file "soff" ⟨[], "x.ppt"⟩ wRaise = (false, "boom") :=
  convert_file_catches_launch_failure "soff" ⟨[], "x.ppt"⟩ wRaise "boom" rfl

/-- The conversion loop logs one `convert_file` invocation per input file,
in order, always with the same executable argument. -/
theorem convLoop_log (s : String) (tr : Nat → World) (fs : List PPath) (i : Nat) :
    (convLoop s tr fs i).2.2 = fs.map (fun f => (s, f)) := by
  induction fs generalizing i with
  | nil => rfl
  | cons f rest ih =>
    by_cases h : (convert_file s f (tr i)).1 = true <;>
      simp [convLoop, h, ih]

/-- Every input file is counted in exactly one of the two counters of the
conversion loop. -/
theorem convLoop_counts (s : String) (tr : Nat → World) (fs : List PPath) (i : Nat) :
    (convLoop s tr fs i).1 + (convLoop s tr fs i).2.1 = fs.length := by
  induction fs generalizing i with
  | nil => rfl
  | cons f rest ih =>
    have hih := ih (i + 1)
    by_cases h : (convert_file s f (tr i)).1 = true <;>
      · simp [convLoop, h]
        omega

/-- A run whose folder checks pass and whose resolution succeeds always
proceeds through collection and the conversion loop to exit code 0; the
zero-file early `sys.exit(0)` agrees with this shape since the loop over
an empty list yields `(0, 0, [])`. -/
theorem main_run_eq (sys : Sys) (root : List String) (recursive : Bool)
    (arg : Option String) (s : String)
    (hroot : sys.rootExists = true ∧ sys.rootIsDir = true)
    (hfind : (find_soffice sys.env arg).1 = .ok s) :
    main sys root recursive arg =
      ⟨0, 1, some (collect_files sys.entries recursive),
        ((collect_files sys.entries recursive).map (entryPath root)).map (fun f => (s, f)),
        (convLoop s sys.trace ((collect_files sys.entries recursive).map (entryPath root)) 0).1,
        (convLoop s sys.trace ((collect_files sys.entries recursive).map (entryPath root)) 0).2.1⟩ := by
  unfold main
  rw [hroot.1, hroot.2, hfind]
  by_cases hlen : (collect_files sys.entries recursive).length = 0
  · rcases List.length_eq_zero.mp hlen with h0
    simp [h0, convLoop]
  · simp [hlen, convLoop_log]

/-- C5.  Whenever the run reaches conversion (folder checks pass and the
executable resolves), the exit code is 0 — however many per-file
conversions fail, and also when zero matching files were found — and the
driver invokes `convert_file` on every collected file in order: no
failure aborts the loop. -/
theorem main_run_exit_zero (sys : Sys) (root : List String) (recursive : Bool)
    (arg : Option String) (s : String)
    (hroot : sys.rootExists = true ∧ sys.rootIsDir = true)
    (hfind : (find_soffice sys.env arg).1 = .ok s) :
    (main sys root recursive arg).exitCode = 0 ∧
    (main sys root recursive arg).conversions.map Prod.snd =
      (collect_files sys.entries recursive).map (entryPath root) := by
  rw [main_run_eq sys root recursive arg s hroot hfind]
  exact ⟨rfl, by simp⟩

/-- C10.  Whenever the run reaches and completes the conversion loop, each
collected file lands in exactly one of the two counters:
`okCount + failCount` equals the number of collected files. -/
theorem main_counts_add_up (sys : Sys) (root : List String) (recursive : Bool)
    (arg : Option String) (s : String)
    (hroot : sys.rootExists = true ∧ sys.rootIsDir = true)
    (hfind : (find_soffice sys.env arg).1 = .ok s) :
    (main sys root recursive arg).okCount + (main sys root recursive arg).failCount =
      (collect_files sys.entries recursive).length := by
  rw [main_run_eq sys root recursive arg s hroot hfind]
  simpa [List.length_map] using
    convLoop_counts s sys.trace
      ((collect_files sys.entries recursive).map (entryPath root)) 0

/-- C9.  Whenever the run reaches conversion, the executable is resolved
exactly once, and that single resolved path is the executable argument of
every per-file `convert_file` invocation. -/
theorem main_resolves_once (sys : Sys) (root : List String) (recursive : Bool)
    (arg : Option String) (s : String)
    (hroot : sys.rootExists = true ∧ sys.rootIsDir = true)
    (hfind : (find_soffice sys.env arg).1 = .ok s) :
    (main sys root recursive arg).resolutions = 1 ∧
    ∀ c ∈ (main sys root recursive arg).conversions, c.1 = s := by
  rw [main_run_eq sys root recursive arg s hroot hfind]
  refine ⟨rfl, ?_⟩
  intro c hc
  obtain ⟨f, -, hf⟩ := List.mem_map.mp hc
  rw [← hf]

/-- Witness for C5 at the concrete system `sysOk`. -/
theorem main_run_exit_zero_witness :
    (main sysOk ["r"] false none).exitCode = 0 ∧
    (main sysOk ["r"] false none).conversions.map Prod.snd =
      (collect_files sysOk.entries false).map (entryPath ["r"]) :=
  main_run_exit_zero sysOk ["r"] false none "/usr/bin/soffice" ⟨rfl, rfl⟩ rfl

/-- Witness for C10 at the concrete system `sysOk`. -/
theorem main_counts_add_up_witness :
    (main sysOk ["r"] false none).okCount + (main sysOk ["r"] false none).failCount =
      (collect_files sysOk.entries false).length :=
  main_counts_add_up sysOk ["r"] false none "/usr/bin/soffice" ⟨rfl, rfl⟩ rfl

/-- Witness for C9 at the concrete system `sysOk`. -/
theorem main_resolves_once_witness :
    (main sysOk ["r"] false none).resolutions = 1 ∧
    ∀ c ∈ (main sysOk ["r"] false none).conversions, c.1 = "/usr/bin/soffice" :=
  main_resolves_once sysOk ["r"] false none "/usr/bin/soffice" ⟨rfl, rfl⟩ rfl

/-- C6.  When the supplied folder does not exist or is not a directory,
the run exits with code 2 having performed no file collection, no
executable resolution and no conversion attempt. -/
theorem main_config_error (sys : Sys) (root : List String) (recursive : Bool)
    (arg : Option String)
    (h : sys.rootExists = false ∨ sys.rootIsDir = false) :
    main sys root recursive arg = ⟨2, 0, none, [], 0, 0⟩ := by
  unfold main
  rcases h with h | h <;> simp [h]

/-- Witness for C6 at a concrete system whose folder is missing. -/
theorem main_config_error_witness :
    main sysBadRoot [] false none = ⟨2, 0, none, [], 0, 0⟩ :=
  main_config_error sysBadRoot [] false none (Or.inl rfl)

/-- C7.  When no resolution strategy finds the executable, the run reports
the error and exits with code 3, with no file ever passed to the
conversion driver (and, as the source happens to collect only after
resolving, no collection either). -/
theorem main_resolution_error (sys : Sys) (root : List String) (recursive : Bool)
    (arg : Option String) (msg : String)
    (hroot : sys.rootExists = true ∧ sys.rootIsDir = true)
    (hfind : (find_soffice sys.env arg).1 = .error msg) :
    main sys root recursive arg = ⟨3, 1, none, [], 0, 0⟩ := by
  unfold main
  rw [hroot.1, hroot.2, hfind]
  simp

/-- Witness for C7 at a concrete system in which every resolution strategy
fails. -/
theorem main_resolution_error_witness :
    main sysNoExe [] false none = ⟨3, 1, none, [], 0, 0⟩ :=
  main_resolution_error sysNoExe [] false none soffice_not_found_msg ⟨rfl, rfl⟩ rfl

/-- C8 as amended: when a non-empty user-supplied path does not exist on
disk, `find_soffice` emits exactly the warning line and falls through to
the remaining resolution steps (resolution is not aborted). -/
theorem find_soffice_warns_then_falls_through (env : Env) (p : String)
    (hne : p ≠ "") (hex : env.pathExists p = false) :
    find_soffice env (some p) =
      (find_soffice_fallback env, ["[!] Provided soffice path not found: " ++ p]) := by
  simp [find_soffice, truthy, String.isEmpty_iff, hne, hex]

/-- Witness for the amended C8: a non-empty, non-existing supplied path
yields the warning and the fallback result. -/
theorem find_soffice_warns_then_falls_through_witness :
    find_soffice envNone (some "/x") =
      (find_soffice_fallback envNone, ["[!] Provided soffice path not found: /x"]) :=
  find_soffice_warns_then_falls_through envNone "/x" (by decide) rfl

/-- Counterexample to claim C8 taken literally: the empty path is a
user-supplied value and, in `envNone`, does not exist on disk, yet
`find_soffice` emits no warning at all (the source tests truthiness
before the existence check, so the empty supplied path is silently
discarded). -/
theorem find_soffice_no_warning_counterexample :
    envNone.pathExists "" = false ∧ (find_soffice envNone (some "")).2 = [] :=
  ⟨rfl, rfl⟩

end PptToPdf
